import Mathlib

/-!
Verification of the packet-capture schema layer of the `cml-mcp` repository
(`simple_webserver/schemas/pcap.py` and `simple_webserver/schemas/wireless.py`).

The source declares pydantic models.  We embed them shallowly:

* a raw JSON field is `RawIn α`: `missing` (the key is absent from the
  payload), `null` (the key is present with an explicit JSON null), or
  `val a` (a value of the field's base type);
* each pydantic model becomes a Lean structure plus a validation function
  `Raw… → Except Err …` that mirrors pydantic's per-field semantics:
  a `missing` field takes the declared default, a `null` field is a type
  error unless the annotation is `… | None`, and a present value is checked
  against the declared `ge` / `le` / `min_length` / `max_length` bounds;
* `model_validator(mode="after")` hooks run on the constructed model after
  all field validation succeeded, exactly as in the source.

Types that the source imports from `simple_webserver.schemas.common`
(`UUID4Type`, `MACAddress`, `IPAddress`) are not part of the provided
sources and are modelled from the spec where needed.
-/

/-- Error taxonomy from the spec (§7).  The source surfaces pydantic
validation failures and `ValueError`s; the spec maps them onto this
taxonomy, which we reuse as the error type of every fallible operation. -/
inductive Err where
  | ValidationError
  | AlreadyRunning
  | InvalidCaptureKey
  | DecodeTooDeep
  deriving Repr, DecidableEq

/-- A raw JSON field: absent key, explicit null, or a present value. -/
inductive RawIn (α : Type) where
  | missing
  | null
  | val (a : α)
  deriving Repr, DecidableEq

/-- `LINK_ENCAP_DESCRIPTION`-described enumeration `LinkEncap` from
`pcap.py`.  `StrEnum` with `auto()` assigns each member the lower-cased
member name as its string value. -/
inductive LinkEncap where
  | ETHERNET
  | FRELAY
  | PPP
  | PPP_HDLC
  | PPPOE
  | C_HDLC
  | SLIP
  | AX25
  | IEEE802_11
  | RADIOTAP
  deriving Repr, DecidableEq

/-- The string value of each `LinkEncap` member: `auto()` on a `StrEnum`
yields the lower-cased member name. -/
def LinkEncap.value : LinkEncap → String
  | .ETHERNET => "ethernet"
  | .FRELAY => "frelay"
  | .PPP => "ppp"
  | .PPP_HDLC => "ppp_hdlc"
  | .PPPOE => "pppoe"
  | .C_HDLC => "c_hdlc"
  | .SLIP => "slip"
  | .AX25 => "ax25"
  | .IEEE802_11 => "ieee802_11"
  | .RADIOTAP => "radiotap"

/-- Pydantic validation of a `LinkEncap` value: a string is accepted iff it
equals the value of some enum member. -/
def parseLinkEncap (s : String) : Option LinkEncap :=
  if s = "ethernet" then some .ETHERNET
  else if s = "frelay" then some .FRELAY
  else if s = "ppp" then some .PPP
  else if s = "ppp_hdlc" then some .PPP_HDLC
  else if s = "pppoe" then some .PPPOE
  else if s = "c_hdlc" then some .C_HDLC
  else if s = "slip" then some .SLIP
  else if s = "ax25" then some .AX25
  else if s = "ieee802_11" then some .IEEE802_11
  else if s = "radiotap" then some .RADIOTAP
  else none

/-- `PCAP_MAX_PACKETS` from `pcap.py`. -/
def PCAP_MAX_PACKETS : Int := 1000000

/-- `PCAP_MAX_TIME` from `pcap.py`. -/
def PCAP_MAX_TIME : Int := 86400

/-- The validated `PCAPConfigBase` model from `pcap.py`: all four fields
have defaults, `maxpackets` and `maxtime` are non-optional ints with
`ge`/`le` bounds, `bpfilter` has `max_length=128`. -/
structure PCAPConfigBase where
  maxpackets : Int
  maxtime : Int
  bpfilter : String
  encap : LinkEncap
  deriving Repr, DecidableEq

/-- Raw payload for `PCAPConfigBase` (and `PCAPStart`, which adds no
field). -/
structure RawPCAPConfig where
  maxpackets : RawIn Int
  maxtime : RawIn Int
  bpfilter : RawIn String
  encap : RawIn String
  deriving Repr, DecidableEq

/-- Field validation for `maxpackets`: default `PCAP_MAX_PACKETS`,
`ge=1`, `le=PCAP_MAX_PACKETS`; an explicit null is a type error because
the annotation is `int`, not `int | None`. -/
def validateMaxpackets : RawIn Int → Except Err Int
  | .missing => .ok PCAP_MAX_PACKETS
  | .null => .error .ValidationError
  | .val n => if 1 ≤ n ∧ n ≤ PCAP_MAX_PACKETS then .ok n else .error .ValidationError

/-- Field validation for `maxtime`: default `PCAP_MAX_TIME`, `ge=1`,
`le=PCAP_MAX_TIME`; explicit null is a type error. -/
def validateMaxtime : RawIn Int → Except Err Int
  | .missing => .ok PCAP_MAX_TIME
  | .null => .error .ValidationError
  | .val n => if 1 ≤ n ∧ n ≤ PCAP_MAX_TIME then .ok n else .error .ValidationError

/-- Field validation for `bpfilter`: default `""`, `max_length=128`;
explicit null is a type error. -/
def validateBpfilter : RawIn String → Except Err String
  | .missing => .ok ""
  | .null => .error .ValidationError
  | .val s => if s.data.length ≤ 128 then .ok s else .error .ValidationError

/-- Field validation for `encap`: default `LinkEncap.ETHERNET`; a present
string must be a valid enum value; explicit null is a type error. -/
def validateEncap : RawIn String → Except Err LinkEncap
  | .missing => .ok .ETHERNET
  | .null => .error .ValidationError
  | .val s =>
    match parseLinkEncap s with
    | some e => .ok e
    | none => .error .ValidationError

/-- Validation of a `PCAPConfigBase` payload: each field independently. -/
def validatePCAPConfigBase (r : RawPCAPConfig) : Except Err PCAPConfigBase :=
  match validateMaxpackets r.maxpackets, validateMaxtime r.maxtime,
      validateBpfilter r.bpfilter, validateEncap r.encap with
  | .ok p, .ok t, .ok b, .ok e => .ok ⟨p, t, b, e⟩
  | .error e, _, _, _ => .error e
  | _, .error e, _, _ => .error e
  | _, _, .error e, _ => .error e
  | _, _, _, .error e => .error e

/-- The `check_at_least_one` model validator of `PCAPStart`.  It raises iff
`self.maxpackets is None and self.maxtime is None`; since both fields are
typed `int` (never `None` after field validation), the condition can never
hold on a constructed model, so on the typed model the hook always
returns the model unchanged. -/
def PCAPStart.check_at_least_one (m : PCAPConfigBase) : Except Err PCAPConfigBase :=
  .ok m

/-- Validation of a `PCAPStart` payload: `PCAPConfigBase` field validation
followed by the `check_at_least_one` model validator. -/
def validatePCAPStart (r : RawPCAPConfig) : Except Err PCAPConfigBase :=
  match validatePCAPConfigBase r with
  | .ok m => PCAPStart.check_at_least_one m
  | .error e => .error e

/-- `UUID4Type` comes from `simple_webserver.schemas.common`, which is not
among the provided sources.  Modelled from the spec: "`capture_key`: opaque
unique identifier" — an opaque string, compared only for equality. -/
abbrev UUID4Type : Type := String

/-- Timestamps (`datetime`) are opaque to this layer; modelled as `Nat`. -/
abbrev Timestamp : Type := Nat

/-- The validated `PCAPConfigStatus` model from `pcap.py`:
`PCAPConfigBase` plus the required `link_capture_key`. -/
structure PCAPConfigStatus where
  base : PCAPConfigBase
  link_capture_key : UUID4Type
  deriving DecidableEq

/-- Raw payload for `PCAPConfigStatus`. -/
structure RawPCAPConfigStatus where
  base : RawPCAPConfig
  link_capture_key : RawIn UUID4Type
  deriving DecidableEq

/-- Field validation for a required field (pydantic `...`): a missing or
null value is a type error. -/
def validateRequired : RawIn UUID4Type → Except Err UUID4Type
  | .missing => .error .ValidationError
  | .null => .error .ValidationError
  | .val k => .ok k

/-- Validation of a `PCAPConfigStatus` payload. -/
def validatePCAPConfigStatus (r : RawPCAPConfigStatus) : Except Err PCAPConfigStatus :=
  match validatePCAPConfigBase r.base, validateRequired r.link_capture_key with
  | .ok b, .ok k => .ok ⟨b, k⟩
  | .error e, _ => .error e
  | _, .error e => .error e

/-- The validated `PCAPStatusResponse` model from `pcap.py`: three fields,
each `… | None` with default `None`. -/
structure PCAPStatusResponse where
  config : Option PCAPConfigStatus
  starttime : Option Timestamp
  packetscaptured : Option Int
  deriving DecidableEq

/-- Raw payload for `PCAPStatusResponse`. -/
structure RawPCAPStatus where
  config : RawIn RawPCAPConfigStatus
  starttime : RawIn Timestamp
  packetscaptured : RawIn Int
  deriving DecidableEq

/-- Field validation for `config`: annotation `PCAPConfigStatus | None`,
default `None`, so missing and null both yield `None`; a present value is
validated as a `PCAPConfigStatus`. -/
def validateStatusConfig : RawIn RawPCAPConfigStatus → Except Err (Option PCAPConfigStatus)
  | .missing => .ok none
  | .null => .ok none
  | .val c =>
    match validatePCAPConfigStatus c with
    | .ok m => .ok (some m)
    | .error e => .error e

/-- Field validation for `starttime`: annotation `datetime | None`,
default `None`; any present timestamp is accepted. -/
def validateStatusStarttime : RawIn Timestamp → Except Err (Option Timestamp)
  | .missing => .ok none
  | .null => .ok none
  | .val t => .ok (some t)

/-- Field validation for `packetscaptured`: annotation `int | None`,
default `None`, `ge=0`. -/
def validateStatusPackets : RawIn Int → Except Err (Option Int)
  | .missing => .ok none
  | .null => .ok none
  | .val n => if 0 ≤ n then .ok (some n) else .error .ValidationError

/-- Validation of a `PCAPStatusResponse` payload: the three fields are
validated independently; the model has no model validator. -/
def validatePCAPStatus (r : RawPCAPStatus) : Except Err PCAPStatusResponse :=
  match validateStatusConfig r.config, validateStatusStarttime r.starttime,
      validateStatusPackets r.packetscaptured with
  | .ok c, .ok t, .ok p => .ok ⟨c, t, p⟩
  | .error e, _, _ => .error e
  | _, .error e, _ => .error e
  | _, _, .error e => .error e

/-- The validated `WirelessPcapConfig` model from `wireless.py`:
`PCAPConfigBase` plus required `link_capture_key`, optional `mac`
(`min_length=1`, `max_length=128`), and required `node_id`.
`WirelessPcapConfig` declares no model validator. -/
structure WirelessPcapConfig where
  base : PCAPConfigBase
  link_capture_key : UUID4Type
  mac : Option String
  node_id : UUID4Type
  deriving DecidableEq

/-- Raw payload for `WirelessPcapConfig` / `WirelessPcapStart`. -/
structure RawWirelessPcapConfig where
  base : RawPCAPConfig
  link_capture_key : RawIn UUID4Type
  mac : RawIn String
  node_id : RawIn UUID4Type
  deriving DecidableEq

/-- Field validation for `mac`: annotation `str | None`, default `None`,
`min_length=1`, `max_length=128`. -/
def validateMac : RawIn String → Except Err (Option String)
  | .missing => .ok none
  | .null => .ok none
  | .val s =>
    if 1 ≤ s.data.length ∧ s.data.length ≤ 128 then .ok (some s)
    else .error .ValidationError

/-- Validation of a `WirelessPcapConfig` payload: field validation only —
the class declares no model validator, so no relation between
`link_capture_key` and `node_id` is checked here. -/
def validateWirelessPcapConfig (r : RawWirelessPcapConfig) :
    Except Err WirelessPcapConfig :=
  match validatePCAPConfigBase r.base, validateRequired r.link_capture_key,
      validateMac r.mac, validateRequired r.node_id with
  | .ok b, .ok k, .ok m, .ok n => .ok ⟨b, k, m, n⟩
  | .error e, _, _, _ => .error e
  | _, .error e, _, _ => .error e
  | _, _, .error e, _ => .error e
  | _, _, _, .error e => .error e

/-- The `check_capture_key_is_node_id` model validator of
`WirelessPcapStart`: raises iff `link_capture_key != node_id`.  The spec
maps this failure to `InvalidCaptureKey`. -/
def WirelessPcapStart.check_capture_key_is_node_id (m : WirelessPcapConfig) :
    Except Err WirelessPcapConfig :=
  if m.link_capture_key = m.node_id then .ok m else .error .InvalidCaptureKey

/-- The `check_at_least_one` model validator of `WirelessPcapStart`: same
vacuous check as `PCAPStart.check_at_least_one` (the two fields are typed
`int`, never `None` on a constructed model). -/
def WirelessPcapStart.check_at_least_one (m : WirelessPcapConfig) :
    Except Err WirelessPcapConfig :=
  .ok m

/-- Validation of a `WirelessPcapStart` payload: `WirelessPcapConfig`
field validation, then the two model validators in declaration order. -/
def validateWirelessPcapStart (r : RawWirelessPcapConfig) :
    Except Err WirelessPcapConfig :=
  match validateWirelessPcapConfig r with
  | .ok m =>
    match WirelessPcapStart.check_at_least_one m with
    | .ok m2 => WirelessPcapStart.check_capture_key_is_node_id m2
    | .error e => .error e
  | .error e => .error e

/-- Hexadecimal digit test, used by the address models below. -/
def isHexDig (c : Char) : Bool :=
  c.isDigit || ("abcdefABCDEF".data.contains c)

/-- Split a character list on a separator character; the result always has
one more group than there are separators. -/
def splitCh (sep : Char) : List Char → List (List Char)
  | [] => [[]]
  | c :: cs =>
    let r := splitCh sep cs
    if c = sep then [] :: r
    else
      match r with
      | g :: gs => (c :: g) :: gs
      | [] => [[c]]

/-- Numeric value of a decimal digit string. -/
def decValue (l : List Char) : Nat :=
  l.foldl (fun acc c => acc * 10 + (c.toNat - 48)) 0

/-- `MACAddress` comes from `simple_webserver.schemas.common`, which is not
among the provided sources.  Modelled from the spec: "a syntactically valid
MAC address" — six groups of two hexadecimal digits separated by colons. -/
def isMACAddress (s : String) : Bool :=
  let gs := splitCh ':' s.data
  gs.length = 6 && gs.all (fun g => g.length = 2 && g.all isHexDig)

/-- Modelled from the spec: "a syntactically valid IP address (v4)" —
four dot-separated decimal octets, each 1–3 digits with value ≤ 255
(`IPAddress` is imported from the absent `schemas.common`). -/
def isIPv4Address (s : String) : Bool :=
  let gs := splitCh '.' s.data
  gs.length = 4 &&
    gs.all (fun g =>
      1 ≤ g.length && g.length ≤ 3 && g.all Char.isDigit && decValue g ≤ 255)

/-- Modelled from the spec: "a syntactically valid IP address (v6)" —
colon-separated groups of at most four hexadecimal digits, between two and
eight groups (empty groups stand for `::` compression); a syntactic
approximation of the absent `schemas.common` type. -/
def isIPv6Address (s : String) : Bool :=
  let gs := splitCh ':' s.data
  2 ≤ gs.length && gs.length ≤ 8 &&
    gs.all (fun g => g.length ≤ 4 && g.all isHexDig)

/-- The `PCAPPeer` union from `pcap.py`:
`MACAddress | IPAddress | Literal["N/A"]`. -/
def isPCAPPeer (s : String) : Bool :=
  isMACAddress s || isIPv4Address s || isIPv6Address s || s = "N/A"

/-- The validated `PCAPItem` model (one packet-summary row) from
`pcap.py`. -/
structure PCAPItem where
  no : String
  time : String
  source : String
  destination : String
  length : String
  protocol : String
  info : String
  deriving Repr, DecidableEq

/-- Raw payload for `PCAPItem`. -/
structure RawPCAPItem where
  no : RawIn String
  time : RawIn String
  source : RawIn String
  destination : RawIn String
  length : RawIn String
  protocol : RawIn String
  info : RawIn String
  deriving Repr, DecidableEq

/-- Field validation for a required `str` field with `min_length` /
`max_length` bounds (pydantic `...` default: missing and null are type
errors). -/
def validateReqStr (lo hi : Nat) : RawIn String → Except Err String
  | .missing => .error .ValidationError
  | .null => .error .ValidationError
  | .val s =>
    if lo ≤ s.data.length ∧ s.data.length ≤ hi then .ok s
    else .error .ValidationError

/-- Field validation for a required `PCAPPeer` field: the value must match
one of the union's members. -/
def validatePeer : RawIn String → Except Err String
  | .missing => .error .ValidationError
  | .null => .error .ValidationError
  | .val s => if isPCAPPeer s then .ok s else .error .ValidationError

/-- Validation of a `PCAPItem` payload (`parse_summary_row`): bounds from
the source — `no`, `time`, `length`, `protocol` are 1–16 characters,
`info` is 1–512, `source` and `destination` are `PCAPPeer`s. -/
def parsePCAPItem (r : RawPCAPItem) : Except Err PCAPItem :=
  match validateReqStr 1 16 r.no, validateReqStr 1 16 r.time,
      validatePeer r.source, validatePeer r.destination with
  | .ok n, .ok t, .ok s, .ok d =>
    match validateReqStr 1 16 r.length, validateReqStr 1 16 r.protocol,
        validateReqStr 1 512 r.info with
    | .ok l, .ok p, .ok i => .ok ⟨n, t, s, d, l, p, i⟩
    | .error e, _, _ => .error e
    | _, .error e, _ => .error e
    | _, _, .error e => .error e
  | .error e, _, _, _ => .error e
  | _, .error e, _, _ => .error e
  | _, _, .error e, _ => .error e
  | _, _, _, .error e => .error e

mutual

/-- The validated `PCAPFieldItem` model from `pcap.py`: every field has a
default (`name`, `formatted_name`, `show` default to `""`; `pos`, `size`
and the nested `field` list default to `None`).  `show` is a Lean keyword,
so the field is named `show_`. -/
inductive PCAPFieldItem where
  | mk (name : String) (formatted_name : String) (pos : Option Int)
      (show_ : String) (size : Option Int) (field : PCAPSubfields)

/-- The `field: list[PCAPFieldItem] | None` member of `PCAPFieldItem`. -/
inductive PCAPSubfields where
  | absent
  | present (l : PCAPFieldItemList)

/-- A list of nested `PCAPFieldItem`s (spelled out so that the mutual
recursion stays structural). -/
inductive PCAPFieldItemList where
  | nil
  | cons (x : PCAPFieldItem) (xs : PCAPFieldItemList)

end

mutual

/-- Raw payload for `PCAPFieldItem`. -/
inductive RawFieldItem where
  | mk (name : RawIn String) (formatted_name : RawIn String) (pos : RawIn Int)
      (show_ : RawIn String) (size : RawIn Int) (field : RawSubfields)

/-- Raw payload for the `field: list[PCAPFieldItem] | None` member. -/
inductive RawSubfields where
  | missing
  | null
  | val (l : RawFieldList)

/-- Raw payload for a list of nested field items. -/
inductive RawFieldList where
  | nil
  | cons (x : RawFieldItem) (xs : RawFieldList)

end

/-- Field validation for a `str` field with default `""` and no bounds
(`name`, `formatted_name`, `show` of `PCAPFieldItem` / `PCAPProtoItem`):
only an explicit null fails (the annotation is `str`, not `str | None`). -/
def validateDefStr : RawIn String → Except Err String
  | .missing => .ok ""
  | .null => .error .ValidationError
  | .val s => .ok s

/-- Field validation for an `int | None` field with default `None` and no
bounds (`pos`, `size` of `PCAPFieldItem`): never fails. -/
def validateOptInt : RawIn Int → Option Int
  | .missing => none
  | .null => none
  | .val n => some n

mutual

/-- Validation of a `PCAPFieldItem` payload, exactly as the schema
declares it: no bounds on any field, recursion into the nested list. -/
def parseFieldSrc : RawFieldItem → Except Err PCAPFieldItem
  | .mk name fn pos sh sz fld =>
    match validateDefStr name, validateDefStr fn, validateDefStr sh with
    | .ok n, .ok f, .ok s =>
      match parseSubfieldsSrc fld with
      | .ok sub => .ok (.mk n f (validateOptInt pos) s (validateOptInt sz) sub)
      | .error e => .error e
    | .error e, _, _ => .error e
    | _, .error e, _ => .error e
    | _, _, .error e => .error e

/-- Validation of the `field: list[PCAPFieldItem] | None` member: missing
and null both give `None`. -/
def parseSubfieldsSrc : RawSubfields → Except Err PCAPSubfields
  | .missing => .ok .absent
  | .null => .ok .absent
  | .val l =>
    match parseFieldListSrc l with
    | .ok fl => .ok (.present fl)
    | .error e => .error e

/-- Validation of a list of nested field items. -/
def parseFieldListSrc : RawFieldList → Except Err PCAPFieldItemList
  | .nil => .ok .nil
  | .cons x xs =>
    match parseFieldSrc x, parseFieldListSrc xs with
    | .ok y, .ok ys => .ok (.cons y ys)
    | .error e, _ => .error e
    | _, .error e => .error e

end

/-- The validated `PCAPProtoItem` model from `pcap.py`: `name` and
`formatted_name` default to `""`, `field` defaults to `None`. -/
structure PCAPProtoItem where
  name : String
  formatted_name : String
  field : PCAPSubfields

/-- Raw payload for `PCAPProtoItem`. -/
structure RawProtoItem where
  name : RawIn String
  formatted_name : RawIn String
  field : RawSubfields

/-- Validation of a `PCAPProtoItem` payload. -/
def parseProtoSrc (r : RawProtoItem) : Except Err PCAPProtoItem :=
  match validateDefStr r.name, validateDefStr r.formatted_name with
  | .ok n, .ok f =>
    match parseSubfieldsSrc r.field with
    | .ok sub => .ok ⟨n, f, sub⟩
    | .error e => .error e
  | .error e, _ => .error e
  | _, .error e => .error e

/-- Validation of the protocol-layer list of `PCAPDetailedItem`. -/
def parseProtoListSrc : List RawProtoItem → Except Err (List PCAPProtoItem)
  | [] => .ok []
  | x :: xs =>
    match parseProtoSrc x, parseProtoListSrc xs with
    | .ok y, .ok ys => .ok (y :: ys)
    | .error e, _ => .error e
    | _, .error e => .error e

/-- The validated `PCAPDetailedItem` model from `pcap.py`: a single
optional list of decoded protocol layers, default `None`. -/
structure PCAPDetailedItem where
  proto : Option (List PCAPProtoItem)

/-- Raw payload for `PCAPDetailedItem`; the empty JSON object `{}` is the
payload with `proto` missing. -/
structure RawDetailedItem where
  proto : RawIn (List RawProtoItem)

/-- Validation of a `PCAPDetailedItem` payload (`parse_detail`):
`proto: list[PCAPProtoItem] | None` with default `None`. -/
def parseDetailSrc (r : RawDetailedItem) : Except Err PCAPDetailedItem :=
  match r.proto with
  | .missing => .ok ⟨none⟩
  | .null => .ok ⟨none⟩
  | .val l =>
    match parseProtoListSrc l with
    | .ok ps => .ok ⟨some ps⟩
    | .error e => .error e

/-- Modelled from the spec: the practical decode-depth ceiling of §4.4
("implementations should impose and document a practical ceiling
(e.g., 256) and fail with `DecodeTooDeep` beyond it"); the declarative
schema in `pcap.py` carries no explicit limit. -/
def PCAP_DECODE_DEPTH_LIMIT : Nat := 256

mutual

/-- Modelled from the spec: bounded-recursion validation of a
`PCAPFieldItem` payload (§4.4) — identical to `parseFieldSrc` except that
the remaining-depth budget decreases on each nesting level and exhaustion
fails with `DecodeTooDeep`. -/
def parseFieldBnd : Nat → RawFieldItem → Except Err PCAPFieldItem
  | 0, _ => .error .DecodeTooDeep
  | d + 1, .mk name fn pos sh sz fld =>
    match validateDefStr name, validateDefStr fn, validateDefStr sh with
    | .ok n, .ok f, .ok s =>
      match parseSubfieldsBnd d fld with
      | .ok sub => .ok (.mk n f (validateOptInt pos) s (validateOptInt sz) sub)
      | .error e => .error e
    | .error e, _, _ => .error e
    | _, .error e, _ => .error e
    | _, _, .error e => .error e

/-- Bounded validation of the nested-field member. -/
def parseSubfieldsBnd : Nat → RawSubfields → Except Err PCAPSubfields
  | _, .missing => .ok .absent
  | _, .null => .ok .absent
  | d, .val l =>
    match parseFieldListBnd d l with
    | .ok fl => .ok (.present fl)
    | .error e => .error e

/-- Bounded validation of a list of nested field items (siblings share the
same remaining-depth budget). -/
def parseFieldListBnd : Nat → RawFieldList → Except Err PCAPFieldItemList
  | _, .nil => .ok .nil
  | d, .cons x xs =>
    match parseFieldBnd d x, parseFieldListBnd d xs with
    | .ok y, .ok ys => .ok (.cons y ys)
    | .error e, _ => .error e
    | _, .error e => .error e

end

/-- Bounded validation of a `PCAPProtoItem` payload: its field tree is
parsed with the full depth budget. -/
def parseProtoBnd (r : RawProtoItem) : Except Err PCAPProtoItem :=
  match validateDefStr r.name, validateDefStr r.formatted_name with
  | .ok n, .ok f =>
    match parseSubfieldsBnd PCAP_DECODE_DEPTH_LIMIT r.field with
    | .ok sub => .ok ⟨n, f, sub⟩
    | .error e => .error e
  | .error e, _ => .error e
  | _, .error e => .error e

/-- Bounded validation of the protocol-layer list. -/
def parseProtoListBnd : List RawProtoItem → Except Err (List PCAPProtoItem)
  | [] => .ok []
  | x :: xs =>
    match parseProtoBnd x, parseProtoListBnd xs with
    | .ok y, .ok ys => .ok (y :: ys)
    | .error e, _ => .error e
    | _, .error e => .error e

/-- Modelled from the spec: `decode_packet`'s bounded parse of a decoded
packet tree (§4.4) — `parseDetailSrc` with the depth ceiling. -/
def parseDetailBnd (r : RawDetailedItem) : Except Err PCAPDetailedItem :=
  match r.proto with
  | .missing => .ok ⟨none⟩
  | .null => .ok ⟨none⟩
  | .val l =>
    match parseProtoListBnd l with
    | .ok ps => .ok ⟨some ps⟩
    | .error e => .error e

/-- A raw field item nested `n + 1` levels deep (all other fields
missing): `deepRawField 0` is a leaf, `deepRawField (n+1)` holds
`deepRawField n` as its only nested subfield. -/
def deepRawField : Nat → RawFieldItem
  | 0 => .mk .missing .missing .missing .missing .missing .missing
  | n + 1 =>
    .mk .missing .missing .missing .missing .missing
      (.val (.cons (deepRawField n) .nil))

/-- A raw decoded-packet payload whose single protocol layer carries a
field structure nested 500 levels deep. -/
def deepRawDetail500 : RawDetailedItem :=
  ⟨.val [⟨.missing, .missing, .val (.cons (deepRawField 499) .nil)⟩]⟩

/-- Modelled from the spec: the `CaptureSession` record of §3 — the
session state machine is described by the spec only; `src/` holds just
the declarative schemas it exchanges.  `config`, `starttime` and
`packetscaptured` are each present (running) or absent (idle). -/
structure CaptureSession where
  capture_key : UUID4Type
  config : Option PCAPConfigBase
  starttime : Option Timestamp
  packetscaptured : Option Nat
  deriving DecidableEq

/-- The idle session created alongside its owning link/node (§3). -/
def CaptureSession.idle (k : UUID4Type) : CaptureSession :=
  ⟨k, none, none, none⟩

/-- A session is running iff its `config` is present. -/
def CaptureSession.running (s : CaptureSession) : Bool :=
  s.config.isSome

/-- Modelled from the spec: the `start` transition of §4.2 — on an idle
session record the config, set `start_time = now` and
`packets_captured = 0`; on a running session fail with `AlreadyRunning`
and leave the state unchanged.  Returns the (possibly unchanged) session
together with the error, if any. -/
def CaptureSession.startOp (s : CaptureSession) (c : PCAPConfigBase)
    (now : Timestamp) : CaptureSession × Option Err :=
  if s.running then (s, some .AlreadyRunning)
  else (⟨s.capture_key, some c, some now, some 0⟩, none)

/-- Modelled from the spec: the `stop` transition of §4.2 — clear the
three transient fields; a no-op on an idle session (idempotent). -/
def CaptureSession.stopOp (s : CaptureSession) : CaptureSession × Option Err :=
  ({ s with config := none, starttime := none, packetscaptured := none }, none)

/-- Modelled from the spec: `status()` of §4.2 — a pure read returning the
full record as a `PCAPStatusResponse` (the config is reported with the
session's key as the deprecated `link_capture_key`). -/
def CaptureSession.status (s : CaptureSession) : PCAPStatusResponse :=
  ⟨s.config.map (fun c => ⟨c, s.capture_key⟩), s.starttime,
    s.packetscaptured.map Int.ofNat⟩

/-- `true` iff an `Except` result is `ok`. -/
def okB {α : Type} : Except Err α → Bool
  | .ok _ => true
  | .error _ => false

/-- `true` iff a raw string field is not an explicit null (the only input a
defaulted unbounded `str` field rejects). -/
def notNull : RawIn String → Bool
  | .null => false
  | _ => true

mutual

/-- No `str`-typed field anywhere in a raw field item is an explicit
null (nullable `pos` / `size` / `field` members are unconstrained). -/
def noNullStrF : RawFieldItem → Bool
  | .mk name fn _ sh _ fld =>
    notNull name && notNull fn && notNull sh && noNullStrSub fld

/-- `noNullStrF` on every item under a raw subfield member. -/
def noNullStrSub : RawSubfields → Bool
  | .missing => true
  | .null => true
  | .val l => noNullStrL l

/-- `noNullStrF` on every item of a raw field list. -/
def noNullStrL : RawFieldList → Bool
  | .nil => true
  | .cons x xs => noNullStrF x && noNullStrL xs

end

/-- No `str`-typed field anywhere in a raw protocol item is an explicit
null. -/
def noNullStrP (r : RawProtoItem) : Bool :=
  notNull r.name && notNull r.formatted_name && noNullStrSub r.field

/-- No `str`-typed field anywhere in a raw decoded-packet payload is an
explicit null. -/
def noNullStrD (r : RawDetailedItem) : Bool :=
  match r.proto with
  | .missing => true
  | .null => true
  | .val l => l.all noNullStrP

/-- A status payload carrying a config but no start time and no packet
count — a partial present/absent combination. -/
def partialStatusRaw : RawPCAPStatus :=
  ⟨.val ⟨⟨.missing, .missing, .missing, .missing⟩,
      .val "11111111-1111-4111-8111-111111111111"⟩, .missing, .missing⟩

/-- The model `partialStatusRaw` validates to: config present, start time
and packet count absent. -/
def statusPartialModel : PCAPStatusResponse :=
  ⟨some ⟨⟨1000000, 86400, "", .ETHERNET⟩, "11111111-1111-4111-8111-111111111111"⟩,
    none, none⟩

/-- A wireless-config payload whose `link_capture_key` and `node_id`
differ (all other fields defaulted). -/
def mismatchWirelessRaw : RawWirelessPcapConfig :=
  ⟨⟨.missing, .missing, .missing, .missing⟩,
    .val "aaaaaaaa-aaaa-4aaa-8aaa-aaaaaaaaaaaa", .missing,
    .val "bbbbbbbb-bbbb-4bbb-8bbb-bbbbbbbbbbbb"⟩

/-- The model `mismatchWirelessRaw` validates to under plain
`WirelessPcapConfig` field validation. -/
def mismatchWirelessModel : WirelessPcapConfig :=
  ⟨⟨1000000, 86400, "", .ETHERNET⟩, "aaaaaaaa-aaaa-4aaa-8aaa-aaaaaaaaaaaa",
    none, "bbbbbbbb-bbbb-4bbb-8bbb-bbbbbbbbbbbb"⟩

/-- A fully populated, well-formed packet-summary row. -/
def sampleRowRaw : RawPCAPItem :=
  ⟨.val "1", .val "12.003743", .val "N/A", .val "00:11:22:33:44:55",
    .val "64", .val "TCP", .val "SYN"⟩

/-- The model `sampleRowRaw` validates to. -/
def sampleRowModel : PCAPItem :=
  ⟨"1", "12.003743", "N/A", "00:11:22:33:44:55", "64", "TCP", "SYN"⟩

/-- The scenario config of the spec: `maxpackets = 50`,
`bpfilter = "src 0.0.0.0"`, everything else defaulted. -/
def scenarioRaw : RawPCAPConfig :=
  ⟨.val 50, .missing, .val "src 0.0.0.0", .missing⟩

/-- The config `scenarioRaw` validates to after default-filling. -/
def scenarioConfig : PCAPConfigBase :=
  ⟨50, 86400, "src 0.0.0.0", .ETHERNET⟩

/-- A raw decoded-packet payload whose protocol and field names are all
present but empty strings. -/
def emptyNamesRawDetail : RawDetailedItem :=
  ⟨.val [⟨.val "", .val "",
    .val (.cons (.mk (.val "") (.val "") .missing (.val "") .missing
      .missing) .nil)⟩]⟩

theorem validateMaxpackets_ok {x : RawIn Int} {v : Int}
    (h : validateMaxpackets x = .ok v) : 1 ≤ v ∧ v ≤ PCAP_MAX_PACKETS := by
  cases x with
  | missing =>
    simp only [validateMaxpackets, Except.ok.injEq] at h
    subst h
    exact ⟨by decide, le_refl _⟩
  | null => simp [validateMaxpackets] at h
  | val n =>
    simp only [validateMaxpackets] at h
    split at h
    · rename_i hc
      injection h with h
      subst h
      exact hc
    · cases h

theorem validateMaxtime_ok {x : RawIn Int} {v : Int}
    (h : validateMaxtime x = .ok v) : 1 ≤ v ∧ v ≤ PCAP_MAX_TIME := by
  cases x with
  | missing =>
    simp only [validateMaxtime, Except.ok.injEq] at h
    subst h
    exact ⟨by decide, le_refl _⟩
  | null => simp [validateMaxtime] at h
  | val n =>
    simp only [validateMaxtime] at h
    split at h
    · rename_i hc
      injection h with h
      subst h
      exact hc
    · cases h

theorem validatePCAPConfigBase_ok_iff {r : RawPCAPConfig} {m : PCAPConfigBase} :
    validatePCAPConfigBase r = .ok m ↔
      validateMaxpackets r.maxpackets = .ok m.maxpackets ∧
      validateMaxtime r.maxtime = .ok m.maxtime ∧
      validateBpfilter r.bpfilter = .ok m.bpfilter ∧
      validateEncap r.encap = .ok m.encap := by
  obtain ⟨mp, mt, mb, me⟩ := m
  unfold validatePCAPConfigBase
  cases h1 : validateMaxpackets r.maxpackets <;>
    cases h2 : validateMaxtime r.maxtime <;>
    cases h3 : validateBpfilter r.bpfilter <;>
    cases h4 : validateEncap r.encap <;>
    simp_all [PCAPConfigBase.mk.injEq, eq_comm]

/-- C4: validation of a capture config succeeds only with `maxpackets` in
[1, 1000000] and `maxtime` in [1, 86400]; a present value of either field
outside its range makes validation fail, and every successfully validated
config carries in-range values. -/
theorem pcapConfig_bounds :
    (∀ r m, validatePCAPConfigBase r = .ok m →
       (1 ≤ m.maxpackets ∧ m.maxpackets ≤ 1000000) ∧
       (1 ≤ m.maxtime ∧ m.maxtime ≤ 86400)) ∧
    (∀ r n m, r.maxpackets = .val n → ¬(1 ≤ n ∧ n ≤ 1000000) →
       validatePCAPConfigBase r ≠ .ok m) ∧
    (∀ r n m, r.maxtime = .val n → ¬(1 ≤ n ∧ n ≤ 86400) →
       validatePCAPConfigBase r ≠ .ok m) := by
  refine ⟨?_, ?_, ?_⟩
  · intro r m h
    rw [validatePCAPConfigBase_ok_iff] at h
    exact ⟨validateMaxpackets_ok h.1, validateMaxtime_ok h.2.1⟩
  · intro r n m hn hout h
    rw [validatePCAPConfigBase_ok_iff] at h
    have := h.1
    rw [hn] at this
    simp only [validateMaxpackets] at this
    split at this
    · rename_i hc
      exact hout hc
    · cases this
  · intro r n m hn hout h
    rw [validatePCAPConfigBase_ok_iff] at h
    have := h.2.1
    rw [hn] at this
    simp only [validateMaxtime] at this
    split at this
    · rename_i hc
      exact hout hc
    · cases this

/-- Witness for C4: the scenario config (`maxpackets = 50`) validates and
its values are in range. -/
theorem pcapConfig_bounds_witness :
    (1 ≤ scenarioConfig.maxpackets ∧ scenarioConfig.maxpackets ≤ 1000000) ∧
    (1 ≤ scenarioConfig.maxtime ∧ scenarioConfig.maxtime ≤ 86400) :=
  pcapConfig_bounds.1 scenarioRaw scenarioConfig rfl

/-- C3 counterexample: the claim's set contains "frame-relay", but
`LinkEncap` validation rejects it (the `StrEnum` member is `FRELAY`, whose
`auto()` value is "frelay"); likewise "ppp-hdlc" and "cisco-hdlc". -/
theorem linkEncap_claimed_names_rejected :
    parseLinkEncap "frame-relay" = none ∧
    parseLinkEncap "ppp-hdlc" = none ∧
    parseLinkEncap "cisco-hdlc" = none ∧
    parseLinkEncap "frelay" = some .FRELAY := by
  refine ⟨?_, ?_, ?_, ?_⟩ <;> rfl

/-- C3 amended: the set of accepted encapsulation strings is exactly
{ethernet, frelay, ppp, ppp_hdlc, pppoe, c_hdlc, slip, ax25, ieee802_11,
radiotap}. -/
theorem linkEncap_accepted_iff (s : String) :
    (parseLinkEncap s).isSome = true ↔
      s ∈ ["ethernet", "frelay", "ppp", "ppp_hdlc", "pppoe", "c_hdlc",
        "slip", "ax25", "ieee802_11", "radiotap"] := by
  unfold parseLinkEncap
  split_ifs with h1 h2 h3 h4 h5 h6 h7 h8 h9 h10 <;> simp_all

/-- C2: a start payload with both `maxpackets` and `maxtime` explicitly
null always fails validation (each null already fails `int`-field
validation); a payload setting exactly one of them to an in-range value
and leaving the other to its default validates (given valid remaining
fields), the absent bound taking its default. -/
theorem pcapStart_at_least_one :
    (∀ bf en, validatePCAPStart ⟨.null, .null, bf, en⟩ =
       .error .ValidationError) ∧
    (∀ (n : Int) b e bf en, validateBpfilter bf = .ok b →
       validateEncap en = .ok e → 1 ≤ n → n ≤ 1000000 →
       validatePCAPStart ⟨.val n, .missing, bf, en⟩ = .ok ⟨n, 86400, b, e⟩) ∧
    (∀ (t : Int) b e bf en, validateBpfilter bf = .ok b →
       validateEncap en = .ok e → 1 ≤ t → t ≤ 86400 →
       validatePCAPStart ⟨.missing, .val t, bf, en⟩ =
         .ok ⟨1000000, t, b, e⟩) := by
  refine ⟨?_, ?_, ?_⟩
  · intro bf en
    unfold validatePCAPStart validatePCAPConfigBase
    cases h3 : validateBpfilter bf <;> cases h4 : validateEncap en <;>
      simp [validateMaxpackets]
  · intro n b e bf en hb he h1 h2
    unfold validatePCAPStart validatePCAPConfigBase
    simp [validateMaxpackets, validateMaxtime, hb, he, h1, h2,
      PCAP_MAX_PACKETS, PCAP_MAX_TIME, PCAPStart.check_at_least_one]
  · intro t b e bf en hb he h1 h2
    unfold validatePCAPStart validatePCAPConfigBase
    simp [validateMaxpackets, validateMaxtime, hb, he, h1, h2,
      PCAP_MAX_PACKETS, PCAP_MAX_TIME, PCAPStart.check_at_least_one]

/-- Witness for C2: the both-null payload is rejected; setting only
`maxpackets = 50` (resp. only `maxtime = 60`) validates with the other
bound defaulted. -/
theorem pcapStart_at_least_one_witness :
    validatePCAPStart ⟨.null, .null, .missing, .missing⟩ =
      .error .ValidationError ∧
    validatePCAPStart ⟨.val 50, .missing, .missing, .missing⟩ =
      .ok ⟨50, 86400, "", .ETHERNET⟩ ∧
    validatePCAPStart ⟨.missing, .val 60, .missing, .missing⟩ =
      .ok ⟨1000000, 60, "", .ETHERNET⟩ :=
  ⟨pcapStart_at_least_one.1 .missing .missing,
   pcapStart_at_least_one.2.1 50 "" .ETHERNET .missing .missing rfl rfl
     (by decide) (by decide),
   pcapStart_at_least_one.2.2 60 "" .ETHERNET .missing .missing rfl rfl
     (by decide) (by decide)⟩

/-- C1 counterexample: `PCAPStatusResponse` validation accepts a record
with `config` present but `starttime` and `packetscaptured` absent — a
partial present/absent combination is a valid status value (the schema has
no cross-field validator). -/
theorem pcapStatus_partial_accepted :
    validatePCAPStatus partialStatusRaw = .ok statusPartialModel ∧
    statusPartialModel.config.isSome = true ∧
    statusPartialModel.starttime = none ∧
    statusPartialModel.packetscaptured = none :=
  ⟨rfl, rfl, rfl, rfl⟩

/-- C1 amended: the three fields of `PCAPStatusResponse` are validated
independently — any present/absent combination whose present fields are
individually valid is accepted (all-present and all-absent included); the
all-or-none invariant is not enforced by the schema. -/
theorem pcapStatus_fields_independent
    (rc : RawIn RawPCAPConfigStatus) (rt : RawIn Timestamp) (rp : RawIn Int)
    (oc : Option PCAPConfigStatus) (ot : Option Timestamp) (op : Option Int)
    (hc : validateStatusConfig rc = .ok oc)
    (ht : validateStatusStarttime rt = .ok ot)
    (hp : validateStatusPackets rp = .ok op) :
    validatePCAPStatus ⟨rc, rt, rp⟩ = .ok ⟨oc, ot, op⟩ := by
  unfold validatePCAPStatus
  simp only [hc, ht, hp]

/-- Witness for C1 (amended): a record with only `starttime` present (yet
another partial combination) validates. -/
theorem pcapStatus_fields_independent_witness :
    validatePCAPStatus ⟨.missing, .val 5, .missing⟩ =
      .ok ⟨none, some 5, none⟩ :=
  pcapStatus_fields_independent .missing (.val 5) .missing none (some 5)
    none rfl rfl rfl

/-- C5 counterexample: a `WirelessPcapConfig` value (the model used in the
wireless status response) with `link_capture_key ≠ node_id` is accepted at
construction — the identity check lives only on `WirelessPcapStart`. -/
theorem wirelessConfig_mismatch_accepted :
    validateWirelessPcapConfig mismatchWirelessRaw = .ok mismatchWirelessModel ∧
    mismatchWirelessModel.link_capture_key ≠ mismatchWirelessModel.node_id :=
  ⟨rfl, by decide⟩

/-- C5 amended: the `capture_key == node_id` identity is enforced on the
start request only: every validated `WirelessPcapStart` has
`link_capture_key = node_id`, and a start payload whose fields validate
but whose keys differ fails with `InvalidCaptureKey`;
`WirelessPcapConfig` itself accepts mismatched keys. -/
theorem wirelessStart_key_check :
    (∀ r m, validateWirelessPcapStart r = .ok m →
       m.link_capture_key = m.node_id) ∧
    (∀ r m, validateWirelessPcapConfig r = .ok m →
       m.link_capture_key ≠ m.node_id →
       validateWirelessPcapStart r = .error .InvalidCaptureKey) := by
  constructor
  · intro r m h
    unfold validateWirelessPcapStart at h
    cases hv : validateWirelessPcapConfig r with
    | ok m0 =>
      rw [hv] at h
      simp only [WirelessPcapStart.check_at_least_one,
        WirelessPcapStart.check_capture_key_is_node_id] at h
      split at h
      · rename_i heq
        injection h with h
        subst h
        exact heq
      · cases h
    | error e =>
      rw [hv] at h
      cases h
  · intro r m h hne
    unfold validateWirelessPcapStart
    rw [h]
    simp only [WirelessPcapStart.check_at_least_one,
      WirelessPcapStart.check_capture_key_is_node_id]
    split
    · rename_i heq
      exact absurd heq hne
    · rfl

/-- Witness for C5 (amended): the concrete mismatched start payload fails
with `InvalidCaptureKey`. -/
theorem wirelessStart_key_check_witness :
    validateWirelessPcapStart mismatchWirelessRaw =
      .error .InvalidCaptureKey :=
  wirelessStart_key_check.2 mismatchWirelessRaw mismatchWirelessModel rfl
    (by decide)

/-- C6: for every config that validates as a start payload, `startOp` on
an idle session succeeds and `status` immediately afterwards reports
exactly that config (with defaults filled in by validation), the start
time, and a packet count of zero. -/
theorem start_status_roundtrip (r : RawPCAPConfig) (c : PCAPConfigBase)
    (k : UUID4Type) (t : Timestamp)
    (h : validatePCAPStart r = .ok c) :
    ((CaptureSession.idle k).startOp c t).2 = none ∧
    ((CaptureSession.idle k).startOp c t).1.status =
      ⟨some ⟨c, k⟩, some t, some 0⟩ := by
  constructor <;> rfl

/-- Witness for C6 — the spec's scenario: starting with `maxpackets = 50`
and `bpfilter = "src 0.0.0.0"` on idle key "K" yields status config
`{50, 86400, "src 0.0.0.0", ethernet}` with zero packets captured. -/
theorem start_status_roundtrip_witness :
    validatePCAPStart scenarioRaw = .ok scenarioConfig ∧
    ((CaptureSession.idle "K").startOp scenarioConfig 1700000000).1.status =
      ⟨some ⟨scenarioConfig, "K"⟩, some 1700000000, some 0⟩ :=
  ⟨rfl, (start_status_roundtrip scenarioRaw scenarioConfig "K" 1700000000
    rfl).2⟩

/-- C7: `startOp` on a running session always fails with `AlreadyRunning`
and returns the session state unchanged. -/
theorem start_on_running_rejected (s : CaptureSession) (c : PCAPConfigBase)
    (t : Timestamp) (h : s.running = true) :
    s.startOp c t = (s, some .AlreadyRunning) := by
  unfold CaptureSession.startOp
  simp [h]

/-- Witness for C7: a concrete running session rejects a second start and
keeps its config, start time and packet count. -/
theorem start_on_running_rejected_witness :
    CaptureSession.startOp
        ⟨"K", some scenarioConfig, some 1700000000, some 7⟩
        ⟨60, 86400, "", .ETHERNET⟩ 1700000999 =
      (⟨"K", some scenarioConfig, some 1700000000, some 7⟩,
        some .AlreadyRunning) :=
  start_on_running_rejected _ _ _ rfl

theorem validateReqStr_ok {lo hi : Nat} {x : RawIn String} {v : String}
    (h : validateReqStr lo hi x = .ok v) :
    x = .val v ∧ lo ≤ v.data.length ∧ v.data.length ≤ hi := by
  cases x with
  | missing => simp [validateReqStr] at h
  | null => simp [validateReqStr] at h
  | val s =>
    simp only [validateReqStr] at h
    split at h
    · rename_i hc
      injection h with h
      subst h
      exact ⟨rfl, hc⟩
    · cases h

theorem validatePeer_ok {x : RawIn String} {v : String}
    (h : validatePeer x = .ok v) : x = .val v ∧ isPCAPPeer v = true := by
  cases x with
  | missing => simp [validatePeer] at h
  | null => simp [validatePeer] at h
  | val s =>
    simp only [validatePeer] at h
    split at h
    · rename_i hc
      injection h with h
      subst h
      exact ⟨rfl, hc⟩
    · cases h

theorem validateReqStr_cases (lo hi : Nat) (x : RawIn String) :
    (∃ v, validateReqStr lo hi x = .ok v) ∨
      validateReqStr lo hi x = .error .ValidationError := by
  cases x with
  | missing => exact Or.inr rfl
  | null => exact Or.inr rfl
  | val s =>
    simp only [validateReqStr]
    split
    · exact Or.inl ⟨s, rfl⟩
    · exact Or.inr rfl

theorem validatePeer_cases (x : RawIn String) :
    (∃ v, validatePeer x = .ok v) ∨
      validatePeer x = .error .ValidationError := by
  cases x with
  | missing => exact Or.inr rfl
  | null => exact Or.inr rfl
  | val s =>
    simp only [validatePeer]
    split
    · exact Or.inl ⟨s, rfl⟩
    · exact Or.inr rfl

theorem parsePCAPItem_ok_iff {r : RawPCAPItem} {m : PCAPItem} :
    parsePCAPItem r = .ok m ↔
      validateReqStr 1 16 r.no = .ok m.no ∧
      validateReqStr 1 16 r.time = .ok m.time ∧
      validatePeer r.source = .ok m.source ∧
      validatePeer r.destination = .ok m.destination ∧
      validateReqStr 1 16 r.length = .ok m.length ∧
      validateReqStr 1 16 r.protocol = .ok m.protocol ∧
      validateReqStr 1 512 r.info = .ok m.info := by
  obtain ⟨m1, m2, m3, m4, m5, m6, m7⟩ := m
  unfold parsePCAPItem
  cases h1 : validateReqStr 1 16 r.no <;>
    cases h2 : validateReqStr 1 16 r.time <;>
    cases h3 : validatePeer r.source <;>
    cases h4 : validatePeer r.destination <;>
    cases h5 : validateReqStr 1 16 r.length <;>
    cases h6 : validateReqStr 1 16 r.protocol <;>
    cases h7 : validateReqStr 1 512 r.info <;>
    simp only [h1, h2, h3, h4, h5, h6, h7] <;>
    simp_all [PCAPItem.mk.injEq]

/-- C8: a packet-summary row validates only if every required text field
is nonempty and within its length bound and both peers are syntactically
valid (`MAC`/`IP`/"N/A"); a row whose `source` is "not-an-address" is
always rejected with a validation error. -/
theorem pcapItem_validation :
    (∀ r m, parsePCAPItem r = .ok m →
       (r.no = .val m.no ∧ 1 ≤ m.no.data.length ∧ m.no.data.length ≤ 16) ∧
       (r.time = .val m.time ∧ 1 ≤ m.time.data.length ∧
         m.time.data.length ≤ 16) ∧
       (r.source = .val m.source ∧ isPCAPPeer m.source = true) ∧
       (r.destination = .val m.destination ∧
         isPCAPPeer m.destination = true) ∧
       (r.length = .val m.length ∧ 1 ≤ m.length.data.length ∧
         m.length.data.length ≤ 16) ∧
       (r.protocol = .val m.protocol ∧ 1 ≤ m.protocol.data.length ∧
         m.protocol.data.length ≤ 16) ∧
       (r.info = .val m.info ∧ 1 ≤ m.info.data.length ∧
         m.info.data.length ≤ 512)) ∧
    (∀ r, r.source = .val "not-an-address" →
       parsePCAPItem r = .error .ValidationError) := by
  constructor
  · intro r m h
    rw [parsePCAPItem_ok_iff] at h
    obtain ⟨h1, h2, h3, h4, h5, h6, h7⟩ := h
    exact ⟨validateReqStr_ok h1, validateReqStr_ok h2, validatePeer_ok h3,
      validatePeer_ok h4, validateReqStr_ok h5, validateReqStr_ok h6,
      validateReqStr_ok h7⟩
  · intro r hs
    have hpeer : validatePeer r.source = .error .ValidationError := by
      rw [hs]
      rfl
    unfold parsePCAPItem
    rcases validateReqStr_cases 1 16 r.no with ⟨v1, h1⟩ | h1 <;> rw [h1] <;>
      rcases validateReqStr_cases 1 16 r.time with ⟨v2, h2⟩ | h2 <;>
      rw [h2] <;> rw [hpeer] <;>
      rcases validatePeer_cases r.destination with ⟨v4, h4⟩ | h4 <;>
      rw [h4]

/-- Witness for C8: a concrete well-formed row (`source = "N/A"`,
`destination` a MAC address) validates, and its fields satisfy all bounds
and peer-validity requirements. -/
theorem pcapItem_validation_witness :
    (sampleRowRaw.no = .val sampleRowModel.no ∧
      1 ≤ sampleRowModel.no.data.length ∧
      sampleRowModel.no.data.length ≤ 16) ∧
    (sampleRowRaw.time = .val sampleRowModel.time ∧
      1 ≤ sampleRowModel.time.data.length ∧
      sampleRowModel.time.data.length ≤ 16) ∧
    (sampleRowRaw.source = .val sampleRowModel.source ∧
      isPCAPPeer sampleRowModel.source = true) ∧
    (sampleRowRaw.destination = .val sampleRowModel.destination ∧
      isPCAPPeer sampleRowModel.destination = true) ∧
    (sampleRowRaw.length = .val sampleRowModel.length ∧
      1 ≤ sampleRowModel.length.data.length ∧
      sampleRowModel.length.data.length ≤ 16) ∧
    (sampleRowRaw.protocol = .val sampleRowModel.protocol ∧
      1 ≤ sampleRowModel.protocol.data.length ∧
      sampleRowModel.protocol.data.length ≤ 16) ∧
    (sampleRowRaw.info = .val sampleRowModel.info ∧
      1 ≤ sampleRowModel.info.data.length ∧
      sampleRowModel.info.data.length ≤ 512) :=
  pcapItem_validation.1 sampleRowRaw sampleRowModel rfl

theorem parseFieldBnd_deep (d : Nat) : ∀ n, d ≤ n →
    parseFieldBnd d (deepRawField n) = .error .DecodeTooDeep := by
  induction d with
  | zero =>
    intro n _
    simp [parseFieldBnd]
  | succ d ih =>
    intro n hn
    cases n with
    | zero => exact absurd hn (by omega)
    | succ m =>
      have hdm : d ≤ m := by omega
      simp only [deepRawField, parseFieldBnd, validateDefStr,
        parseSubfieldsBnd, parseFieldListBnd, ih m hdm]

/-- C9: the bounded decode of a packet tree whose field structure is
nested 500 levels deep fails with `DecodeTooDeep` (the depth ceiling is
256); the walk is a total function, so it terminates on every input. -/
theorem decode_deep_tree_rejected :
    parseDetailBnd deepRawDetail500 = .error .DecodeTooDeep ∧
    PCAP_DECODE_DEPTH_LIMIT = 256 := by
  constructor
  · have h : parseFieldBnd 256 (deepRawField 499) = .error .DecodeTooDeep :=
      parseFieldBnd_deep 256 499 (by omega)
    simp only [deepRawDetail500, parseDetailBnd, parseProtoListBnd,
      parseProtoBnd, validateDefStr, parseSubfieldsBnd, parseFieldListBnd,
      PCAP_DECODE_DEPTH_LIMIT, h]
  · rfl

theorem validateDefStr_ok_of_notNull {x : RawIn String}
    (h : notNull x = true) : ∃ v, validateDefStr x = .ok v := by
  cases x with
  | missing => exact ⟨"", rfl⟩
  | null => simp [notNull] at h
  | val s => exact ⟨s, rfl⟩

mutual

theorem parseFieldSrc_ok : ∀ r, noNullStrF r = true →
    okB (parseFieldSrc r) = true
  | .mk name fn pos sh sz fld, h => by
    simp only [noNullStrF, Bool.and_eq_true] at h
    obtain ⟨⟨⟨hn, hf⟩, hs⟩, hsub⟩ := h
    obtain ⟨vn, hvn⟩ := validateDefStr_ok_of_notNull hn
    obtain ⟨vf, hvf⟩ := validateDefStr_ok_of_notNull hf
    obtain ⟨vs, hvs⟩ := validateDefStr_ok_of_notNull hs
    have hsub2 := parseSubfieldsSrc_ok fld hsub
    simp only [parseFieldSrc, hvn, hvf, hvs]
    cases hps : parseSubfieldsSrc fld with
    | ok s => simp [okB]
    | error e =>
      rw [hps] at hsub2
      simp [okB] at hsub2

theorem parseSubfieldsSrc_ok : ∀ s, noNullStrSub s = true →
    okB (parseSubfieldsSrc s) = true
  | .missing, _ => by simp [parseSubfieldsSrc, okB]
  | .null, _ => by simp [parseSubfieldsSrc, okB]
  | .val l, h => by
    have h2 := parseFieldListSrc_ok l (by simpa [noNullStrSub] using h)
    simp only [parseSubfieldsSrc]
    cases hpl : parseFieldListSrc l with
    | ok fl => simp [okB]
    | error e =>
      rw [hpl] at h2
      simp [okB] at h2

theorem parseFieldListSrc_ok : ∀ l, noNullStrL l = true →
    okB (parseFieldListSrc l) = true
  | .nil, _ => by simp [parseFieldListSrc, okB]
  | .cons x xs, h => by
    simp only [noNullStrL, Bool.and_eq_true] at h
    have hx := parseFieldSrc_ok x h.1
    have hxs := parseFieldListSrc_ok xs h.2
    simp only [parseFieldListSrc]
    cases h1 : parseFieldSrc x with
    | ok y =>
      cases h2 : parseFieldListSrc xs with
      | ok ys => simp [okB]
      | error e =>
        rw [h2] at hxs
        simp [okB] at hxs
    | error e =>
      rw [h1] at hx
      simp [okB] at hx

end

theorem parseProtoSrc_ok {p : RawProtoItem} (h : noNullStrP p = true) :
    okB (parseProtoSrc p) = true := by
  simp only [noNullStrP, Bool.and_eq_true] at h
  obtain ⟨⟨hn, hf⟩, hsub⟩ := h
  obtain ⟨vn, hvn⟩ := validateDefStr_ok_of_notNull hn
  obtain ⟨vf, hvf⟩ := validateDefStr_ok_of_notNull hf
  have hsub2 := parseSubfieldsSrc_ok p.field hsub
  simp only [parseProtoSrc, hvn, hvf]
  cases hps : parseSubfieldsSrc p.field with
  | ok s => simp [okB]
  | error e =>
    rw [hps] at hsub2
    simp [okB] at hsub2

theorem parseProtoListSrc_ok : ∀ l : List RawProtoItem,
    l.all noNullStrP = true → okB (parseProtoListSrc l) = true := by
  intro l
  induction l with
  | nil => intro _; simp [parseProtoListSrc, okB]
  | cons x xs ih =>
    intro h
    simp only [List.all_cons, Bool.and_eq_true] at h
    have hx := parseProtoSrc_ok h.1
    have hxs := ih h.2
    simp only [parseProtoListSrc]
    cases h1 : parseProtoSrc x with
    | ok y =>
      cases h2 : parseProtoListSrc xs with
      | ok ys => simp [okB]
      | error e =>
        rw [h2] at hxs
        simp [okB] at hxs
    | error e =>
      rw [h1] at hx
      simp [okB] at hx

/-- C10: every field of the decoded-packet tree schema has a default or
is optional — the empty object validates to the all-absent tree, and any
payload without explicit nulls in its `str`-typed positions (in
particular, any tree whose protocol and field names are present but empty
strings) validates. -/
theorem parseDetail_defaults :
    parseDetailSrc ⟨.missing⟩ = .ok ⟨none⟩ ∧
    (∀ r, noNullStrD r = true → okB (parseDetailSrc r) = true) := by
  constructor
  · rfl
  · intro r h
    obtain ⟨p⟩ := r
    cases p with
    | missing => simp [parseDetailSrc, okB]
    | null => simp [parseDetailSrc, okB]
    | val l =>
      have h2 := parseProtoListSrc_ok l (by simpa [noNullStrD] using h)
      simp only [parseDetailSrc]
      cases hpl : parseProtoListSrc l with
      | ok ps => simp [okB]
      | error e =>
        rw [hpl] at h2
        simp [okB] at h2

/-- Witness for C10: a concrete tree whose protocol and field names are
all empty strings validates. -/
theorem parseDetail_defaults_witness :
    okB (parseDetailSrc emptyNamesRawDetail) = true :=
  parseDetail_defaults.2 emptyNamesRawDetail (by
    simp [noNullStrD, noNullStrP, noNullStrSub, noNullStrL, noNullStrF,
      notNull, emptyNamesRawDetail])
